import Mathlib

/-!
Shallow embedding of the task prioritization engine of
src/frontend/src/TaskAnalyzer.tsx, and proofs about it.

JavaScript numbers are modelled as exact rationals; the ambient clock
(new Date() inside calculatePriority, Date.now() in the import path) is
passed as an explicit parameter.  Date strings are modelled by their
parsed time value in milliseconds.
-/

namespace TaskAnalyzer

/-- Priority tier, the level field of a Priority. -/
inductive Level where
  | high
  | medium
  | low
deriving DecidableEq, Repr

/-- The four weighting strategies. -/
inductive Strategy where
  | smart_balance
  | fastest_wins
  | high_impact
  | deadline_driven
deriving DecidableEq, Repr

/-- A task record, as consumed by the engine.  due_date holds the parsed
time value (milliseconds since epoch) of the date string in the source. -/
structure Task where
  id : String
  title : String
  due_date : ℚ
  estimated_hours : ℚ
  importance : ℚ
  dependencies : List String
deriving DecidableEq, Repr

/-- The four unweighted component sub-scores reported for auditability. -/
structure PriorityBreakdown where
  urgency : ℚ
  importance : ℚ
  effort : ℚ
  dependencies : ℚ
deriving DecidableEq, Repr

/-- The result computed per task by calculatePriority. -/
structure Priority where
  score : ℚ
  level : Level
  explanation : String
  breakdown : PriorityBreakdown
deriving DecidableEq, Repr

/-- A task together with its computed priority. -/
structure AnalyzedTask where
  task : Task
  priority : Priority
deriving DecidableEq, Repr

/-- Milliseconds per day, the divisor 1000 * 60 * 60 * 24 in the source. -/
def msPerDay : ℚ := 1000 * 60 * 60 * 24

/-- JavaScript Math.round: round half toward positive infinity. -/
def jround (x : ℚ) : ℤ := ⌊x + 0.5⌋

/-- Math.round(x * 10) / 10, rounding to one decimal place. -/
def roundTo1 (x : ℚ) : ℚ := (jround (x * 10) : ℚ) / 10

/-- daysUntilDue = (dueDate.getTime() - now.getTime()) / (1000*60*60*24). -/
def daysUntilDue (task : Task) (now : ℚ) : ℚ :=
  (task.due_date - now) / msPerDay

/-- The urgency bucket function of calculatePriority (the if chain on
daysUntilDue). -/
def urgencyOf (d : ℚ) : ℚ :=
  if d < 0 then 10 + |d| * 0.5
  else if d ≤ 1 then 9
  else if d ≤ 3 then 7
  else if d ≤ 7 then 5
  else if d ≤ 14 then 3
  else 1

/-- importanceScore = task.importance || 5 (0 is falsy in JavaScript). -/
def importanceScoreOf (task : Task) : ℚ :=
  if task.importance = 0 then 5 else task.importance

/-- effortScore = 10 - Math.min(task.estimated_hours || 1, 10). -/
def effortScoreOf (task : Task) : ℚ :=
  10 - min (if task.estimated_hours = 0 then 1 else task.estimated_hours) 10

/-- dependencyScore: when dependencies is non-empty, twice the number of
tasks of allTasks whose id occurs in task.dependencies. -/
def dependencyScoreOf (task : Task) (allTasks : List Task) : ℚ :=
  if 0 < task.dependencies.length then
    ((allTasks.filter (fun t => task.dependencies.contains t.id)).length : ℚ) * 2
  else 0

/-- The switch over the strategy computing finalScore from the four
component scores. -/
def strategyScore (u i e d : ℚ) : Strategy → ℚ
  | .fastest_wins => e * 0.6 + u * 0.2 + i * 0.2
  | .high_impact => i * 0.7 + u * 0.2 + e * 0.1
  | .deadline_driven => u * 0.7 + i * 0.2 + e * 0.1
  | .smart_balance => u * 0.35 + i * 0.35 + e * 0.15 + d * 0.15

/-- The explanation label set in the same switch. -/
def explanationOf : Strategy → String
  | .fastest_wins => "Quick wins prioritized"
  | .high_impact => "High importance focus"
  | .deadline_driven => "Deadline focused"
  | .smart_balance => "Balanced priority"

/-- The unrounded finalScore of calculatePriority. -/
def finalScoreOf (task : Task) (allTasks : List Task) (strategy : Strategy)
    (now : ℚ) : ℚ :=
  strategyScore (urgencyOf (daysUntilDue task now)) (importanceScoreOf task)
    (effortScoreOf task) (dependencyScoreOf task allTasks) strategy

/-- calculatePriority(task, allTasks, strategy) at analysis instant now. -/
def calculatePriority (task : Task) (allTasks : List Task)
    (strategy : Strategy) (now : ℚ) : Priority :=
  let finalScore := finalScoreOf task allTasks strategy now
  { score := roundTo1 finalScore
    level := if finalScore ≥ 7 then .high
             else if finalScore ≥ 4 then .medium
             else .low
    explanation := explanationOf strategy
    breakdown :=
      { urgency := roundTo1 (urgencyOf (daysUntilDue task now))
        importance := importanceScoreOf task
        effort := roundTo1 (effortScoreOf task)
        dependencies := dependencyScoreOf task allTasks } }

/-- One element of the analyzed list: the task spread together with its
priority. -/
def mkAnalyzed (task : Task) (allTasks : List Task) (strategy : Strategy)
    (now : ℚ) : AnalyzedTask :=
  { task := task, priority := calculatePriority task allTasks strategy now }

/-- The comparator (a, b) => b.priority.score - a.priority.score: a stays
before b exactly when the comparator is non-positive. -/
def scoreLE (a b : AnalyzedTask) : Bool :=
  decide (b.priority.score ≤ a.priority.score)

/-- The map plus stable descending sort performed by analyzeTasks. -/
def analyzeList (tasks : List Task) (strategy : Strategy) (now : ℚ) :
    List AnalyzedTask :=
  ((tasks.map (fun t => mkAnalyzed t tasks strategy now)).mergeSort scoreLE)

/-- The engine view of analyzeTasks: none models the EmptyInputError path
(the early return on an empty task list). -/
def analyze (tasks : List Task) (strategy : Strategy) (now : ℚ) :
    Option (List AnalyzedTask) :=
  if tasks.isEmpty then none else some (analyzeList tasks strategy now)

/-- The component state visible to the claims: the working set, the last
analysis, the selected strategy and the loading flag. -/
structure AppState where
  tasks : List Task
  analyzedTasks : List AnalyzedTask
  sortStrategy : Strategy
  loading : Bool
deriving DecidableEq, Repr

/-- The Clear All handler: onClick={() => setTasks([])}. -/
def clearAll (s : AppState) : AppState :=
  { s with tasks := [] }

/-- The analyzeTasks handler run to completion: on an empty working set it
alerts and returns; otherwise it stores the sorted analysis and clears the
loading flag. -/
def runAnalyze (s : AppState) (now : ℚ) : AppState :=
  if s.tasks.isEmpty then s
  else { s with
          analyzedTasks := analyzeList s.tasks s.sortStrategy now
          loading := false }

/-- One parsed element of a bulk-import payload; none marks a field that
is absent (or whose parse yielded NaN, which the source treats the same
through the falsy-default idiom). -/
structure RawTask where
  id : Option String
  title : Option String
  due_date : Option ℚ
  estimated_hours : Option ℚ
  importance : Option ℤ
  dependencies : Option (List String)
deriving DecidableEq, Repr

/-- A successfully parsed payload: either a single task-like object or a
list of them. -/
inductive ParsedPayload where
  | single (t : RawTask)
  | list (ts : List RawTask)
deriving DecidableEq, Repr

/-- Array.isArray(parsed) ? parsed : [parsed]. -/
def payloadTasks : ParsedPayload → List RawTask
  | .single t => [t]
  | .list ts => ts

/-- The generated id task_${Date.now()}_${idx}. -/
def mkImportId (nowMs : ℤ) (idx : ℕ) : String :=
  "task_" ++ toString nowMs ++ "_" ++ toString idx

/-- The default due date new Date().toISOString().split('T')[0], i.e. the
current UTC day at midnight, as a parsed time value. -/
def todayDate (nowMs : ℤ) : ℚ :=
  ((86400000 * (nowMs / 86400000) : ℤ) : ℚ)

/-- The per-element defaulting and clamping of handleBulkImport.  Falsy
values (empty string, zero) trigger the same defaults as absence, exactly
as the || idiom of the source does. -/
def validateRaw (nowMs : ℤ) (idx : ℕ) (t : RawTask) : Task :=
  { id := match t.id with
      | some s => if s = "" then mkImportId nowMs idx else s
      | none => mkImportId nowMs idx
    title := match t.title with
      | some s => if s = "" then "Untitled Task" else s
      | none => "Untitled Task"
    due_date := t.due_date.getD (todayDate nowMs)
    estimated_hours := match t.estimated_hours with
      | some q => if q = 0 then 1 else q
      | none => 1
    importance :=
      ((min (max (match t.importance with
          | some i => if i = 0 then 5 else i
          | none => 5) 1) 10 : ℤ) : ℚ)
    dependencies := t.dependencies.getD [] }

/-- handleBulkImport: none models a payload that JSON.parse rejects (the
catch branch, which leaves the state unchanged); a parsed payload is
validated element-wise and appended to the working set in order. -/
def handleBulkImport (payload : Option ParsedPayload) (nowMs : ℤ)
    (s : AppState) : AppState :=
  match payload with
  | none => s
  | some p =>
      { s with tasks :=
          s.tasks ++ (payloadTasks p).mapIdx (fun idx t => validateRaw nowMs idx t) }

/-! ## Concrete data used by counterexamples and witnesses -/

/-- A task due at the analysis instant, importance 3, 9.3 estimated hours,
no dependencies. -/
def taskT1 : Task :=
  { id := "t1", title := "T1", due_date := 0, estimated_hours := 9.3
    importance := 3, dependencies := [] }

/-- A task listing its own id among its dependencies. -/
def taskSelf : Task :=
  { id := "a", title := "A", due_date := 0, estimated_hours := 1
    importance := 5, dependencies := ["a"] }

/-! ## Theorems -/

/-- Claim C2: the urgency component is 10 + |daysUntilDue| * 0.5 when
overdue, 9 on [0,1], 7 on (1,3], 5 on (3,7], 3 on (7,14], 1 above 14, with
each upper bound inclusive; in the overdue branch it is strictly
increasing in lateness and equals 15 at exactly 10 days overdue. -/
theorem urgency_component_buckets (d : ℚ) :
    (d < 0 → urgencyOf d = 10 + |d| * 0.5) ∧
    (0 ≤ d ∧ d ≤ 1 → urgencyOf d = 9) ∧
    (1 < d ∧ d ≤ 3 → urgencyOf d = 7) ∧
    (3 < d ∧ d ≤ 7 → urgencyOf d = 5) ∧
    (7 < d ∧ d ≤ 14 → urgencyOf d = 3) ∧
    (14 < d → urgencyOf d = 1) ∧
    (∀ e : ℚ, e < d → d < 0 → urgencyOf d < urgencyOf e) ∧
    urgencyOf (-10) = 15 := by
  refine ⟨?_, ?_, ?_, ?_, ?_, ?_, ?_, ?_⟩
  · intro h
    rw [urgencyOf, if_pos h]
  · rintro ⟨h0, h1⟩
    rw [urgencyOf, if_neg (by linarith), if_pos h1]
  · rintro ⟨h1, h3⟩
    rw [urgencyOf, if_neg (by linarith), if_neg (by linarith), if_pos h3]
  · rintro ⟨h3, h7⟩
    rw [urgencyOf, if_neg (by linarith), if_neg (by linarith),
      if_neg (by linarith), if_pos h7]
  · rintro ⟨h7, h14⟩
    rw [urgencyOf, if_neg (by linarith), if_neg (by linarith),
      if_neg (by linarith), if_neg (by linarith), if_pos h14]
  · intro h14
    rw [urgencyOf, if_neg (by linarith), if_neg (by linarith),
      if_neg (by linarith), if_neg (by linarith), if_neg (by linarith)]
  · intro e he hd
    have he0 : e < 0 := he.trans hd
    rw [urgencyOf, if_pos hd, urgencyOf, if_pos he0, abs_of_neg hd,
      abs_of_neg he0]
    linarith
  · rw [urgencyOf, if_pos (by norm_num)]
    norm_num

/-- Witness for urgency_component_buckets at concrete inputs. -/
theorem urgency_component_buckets_witness :
    urgencyOf (-1) = 10 + |(-1 : ℚ)| * 0.5 ∧ urgencyOf (-1) < urgencyOf (-2) ∧
    urgencyOf 1 = 9 ∧ urgencyOf 15 = 1 := by
  have h1 := urgency_component_buckets (-1)
  have h2 := urgency_component_buckets 1
  have h3 := urgency_component_buckets 15
  exact ⟨h1.1 (by norm_num),
    h1.2.2.2.2.2.2.1 (-2) (by norm_num) (by norm_num),
    h2.2.1 ⟨by norm_num, le_refl 1⟩,
    h3.2.2.2.2.2.1 (by norm_num)⟩

/-- Claim C1 counterexample: for taskT1 under deadline_driven at instant 0
the unrounded final score is 6.97, which rounds to a stored score of 7.0,
yet the level is medium, not high — the level is not a function of the
rounded score field. -/
theorem level_not_from_rounded_score :
    (calculatePriority taskT1 [taskT1] Strategy.deadline_driven 0).score = 7 ∧
    (calculatePriority taskT1 [taskT1] Strategy.deadline_driven 0).level =
      Level.medium := by
  have hfs : finalScoreOf taskT1 [taskT1] Strategy.deadline_driven 0 =
      697 / 100 := by
    norm_num [finalScoreOf, strategyScore, urgencyOf, daysUntilDue,
      importanceScoreOf, effortScoreOf, dependencyScoreOf, msPerDay, taskT1]
  constructor
  · show roundTo1 (finalScoreOf taskT1 [taskT1] Strategy.deadline_driven 0) = 7
    rw [hfs]
    norm_num [roundTo1, jround]
  · show (if finalScoreOf taskT1 [taskT1] Strategy.deadline_driven 0 ≥ 7
        then Level.high
        else if finalScoreOf taskT1 [taskT1] Strategy.deadline_driven 0 ≥ 4
        then Level.medium else Level.low) = Level.medium
    rw [hfs, if_neg (by norm_num), if_pos (by norm_num)]

/-- Claim C1 (amended): the level is a function of the unrounded final
score, not of the rounded score field: high iff finalScore ≥ 7, medium iff
4 ≤ finalScore < 7, low iff finalScore < 4. -/
theorem level_matches_unrounded_score (task : Task) (allTasks : List Task)
    (strategy : Strategy) (now : ℚ) :
    ((calculatePriority task allTasks strategy now).level = Level.high ↔
      7 ≤ finalScoreOf task allTasks strategy now) ∧
    ((calculatePriority task allTasks strategy now).level = Level.medium ↔
      4 ≤ finalScoreOf task allTasks strategy now ∧
        finalScoreOf task allTasks strategy now < 7) ∧
    ((calculatePriority task allTasks strategy now).level = Level.low ↔
      finalScoreOf task allTasks strategy now < 4) := by
  have hlev : (calculatePriority task allTasks strategy now).level =
      (if finalScoreOf task allTasks strategy now ≥ 7 then Level.high
       else if finalScoreOf task allTasks strategy now ≥ 4 then Level.medium
       else Level.low) := rfl
  rw [hlev]
  set fs := finalScoreOf task allTasks strategy now with hfs
  split_ifs with h1 h2
  · refine ⟨⟨fun _ => h1, fun _ => rfl⟩, ?_, ?_⟩
    · exact ⟨fun h => absurd h (by decide), fun h => absurd h1 (not_le.mpr h.2)⟩
    · exact ⟨fun h => absurd h (by decide),
        fun h => absurd h1 (not_le.mpr (h.trans (by norm_num)))⟩
  · refine ⟨?_, ⟨fun _ => ⟨h2, not_le.mp h1⟩, fun _ => rfl⟩, ?_⟩
    · exact ⟨fun h => absurd h (by decide), fun h => absurd h h1⟩
    · exact ⟨fun h => absurd h (by decide), fun h => absurd h2 (not_le.mpr h)⟩
  · refine ⟨?_, ?_, ⟨fun _ => not_le.mp h2, fun _ => rfl⟩⟩
    · exact ⟨fun h => absurd h (by decide), fun h => absurd h h1⟩
    · exact ⟨fun h => absurd h (by decide), fun h => absurd h.1 h2⟩

/-- A state holding one task and a previously computed analysis. -/
def analyzedState : AppState :=
  { tasks := [taskT1]
    analyzedTasks := [mkAnalyzed taskT1 [taskT1] Strategy.smart_balance 0]
    sortStrategy := Strategy.smart_balance
    loading := false }

/-- Claim C3 counterexample: starting from a state holding a previously
computed analysis, Clear All empties the working set but the analyzed list
is still non-empty. -/
theorem clearAll_keeps_analysis :
    (clearAll analyzedState).tasks = [] ∧
    (clearAll analyzedState).analyzedTasks ≠ [] := by
  exact ⟨rfl, by simp [clearAll, analyzedState]⟩

/-- Claim C3 (amended): clearAll empties the working task set but leaves
the previously computed analysis untouched. -/
theorem clearAll_empties_tasks_only (s : AppState) :
    (clearAll s).tasks = [] ∧ (clearAll s).analyzedTasks = s.analyzedTasks := by
  exact ⟨rfl, rfl⟩

/-- Following the spec wording of the dependency component: twice the
count of tasks of allTasks OTHER than the task itself whose id appears in
the dependencies of the task.  Kept separate from dependencyScoreOf, which
is translated from the source, so the two can be compared. -/
def specDependencyScore (task : Task) (allTasks : List Task) : ℚ :=
  ((allTasks.filter
      (fun t => !(t == task) && task.dependencies.contains t.id)).length : ℚ) * 2

/-- Claim C4 counterexample: a task listing its own id among its
dependencies is counted by the source, so the component is 2, while the
spec rule counting only other tasks yields 0. -/
theorem dependency_component_counts_self :
    dependencyScoreOf taskSelf [taskSelf] = 2 ∧
    specDependencyScore taskSelf [taskSelf] = 0 := by
  constructor
  · norm_num [dependencyScoreOf, taskSelf, List.contains_cons]
  · norm_num [specDependencyScore, taskSelf]

/-- Claim C4 (amended): the dependency component equals twice the number
of tasks of allTasks, the task itself included, whose id appears in its
dependencies; a duplicated dependency entry has no additional effect. -/
theorem dependency_component_amended (t : Task) (allTasks : List Task) :
    dependencyScoreOf t allTasks =
      2 * ((allTasks.filter (fun u => t.dependencies.contains u.id)).length : ℚ) ∧
    (∀ d, d ∈ t.dependencies →
      dependencyScoreOf { t with dependencies := d :: t.dependencies } allTasks =
        dependencyScoreOf t allTasks) := by
  constructor
  · rw [dependencyScoreOf]
    split_ifs with h
    · ring
    · have hnil : t.dependencies = [] := by
        rw [← List.length_eq_zero]
        omega
      have : allTasks.filter (fun u => t.dependencies.contains u.id) = [] := by
        simp [hnil, List.contains]
      rw [this]
      simp
  · intro d hd
    have hpos : 0 < t.dependencies.length := List.length_pos_of_mem hd
    have hfil : allTasks.filter
          (fun u => (d :: t.dependencies).contains u.id) =
        allTasks.filter (fun u => t.dependencies.contains u.id) := by
      apply List.filter_congr
      intro u _
      simp only [List.contains, List.elem_eq_mem, List.mem_cons,
        decide_eq_decide]
      constructor
      · rintro (rfl | h)
        · exact hd
        · exact h
      · exact Or.inr
    rw [dependencyScoreOf, dependencyScoreOf, if_pos (by simp), if_pos hpos,
      hfil]

/-- Witness for dependency_component_amended: duplicating the single
dependency of taskSelf leaves the component at 2. -/
theorem dependency_component_amended_witness :
    dependencyScoreOf
        { taskSelf with dependencies := "a" :: taskSelf.dependencies }
        [taskSelf] =
      dependencyScoreOf taskSelf [taskSelf] :=
  (dependency_component_amended taskSelf [taskSelf]).2 "a" (by
    simp [taskSelf])

/-- Claim C5: each strategy combines the four components with exactly the
weights of the table, carries the matching explanation label, and only
smart_balance depends on the dependency component; finalScoreOf is that
combination of the four component scores. -/
theorem strategy_weights_table (u i e d : ℚ) :
    (strategyScore u i e d Strategy.smart_balance =
        u * 0.35 + i * 0.35 + e * 0.15 + d * 0.15 ∧
      explanationOf Strategy.smart_balance = "Balanced priority") ∧
    (strategyScore u i e d Strategy.fastest_wins =
        u * 0.2 + i * 0.2 + e * 0.6 + d * 0 ∧
      explanationOf Strategy.fastest_wins = "Quick wins prioritized") ∧
    (strategyScore u i e d Strategy.high_impact =
        u * 0.2 + i * 0.7 + e * 0.1 + d * 0 ∧
      explanationOf Strategy.high_impact = "High importance focus") ∧
    (strategyScore u i e d Strategy.deadline_driven =
        u * 0.7 + i * 0.2 + e * 0.1 + d * 0 ∧
      explanationOf Strategy.deadline_driven = "Deadline focused") ∧
    (∀ s : Strategy, s ≠ Strategy.smart_balance → ∀ dOther : ℚ,
      strategyScore u i e d s = strategyScore u i e dOther s) ∧
    (∀ (task : Task) (allTasks : List Task) (s : Strategy) (now : ℚ),
      finalScoreOf task allTasks s now =
        strategyScore (urgencyOf (daysUntilDue task now))
          (importanceScoreOf task) (effortScoreOf task)
          (dependencyScoreOf task allTasks) s) := by
  refine ⟨⟨by rw [strategyScore], rfl⟩, ⟨by rw [strategyScore]; ring, rfl⟩,
    ⟨by rw [strategyScore]; ring, rfl⟩, ⟨by rw [strategyScore]; ring, rfl⟩,
    ?_, fun _ _ _ _ => rfl⟩
  intro s hs dOther
  cases s with
  | smart_balance => exact absurd rfl hs
  | fastest_wins => rfl
  | high_impact => rfl
  | deadline_driven => rfl

/-- Witness for strategy_weights_table: under fastest_wins the dependency
component does not influence the score. -/
theorem strategy_weights_table_witness :
    strategyScore 1 2 3 4 Strategy.fastest_wins =
      strategyScore 1 2 3 99 Strategy.fastest_wins :=
  (strategy_weights_table 1 2 3 4).2.2.2.2.1 Strategy.fastest_wins
    (by decide) 99

/-- The comparator is transitive. -/
theorem scoreLE_trans : ∀ a b c : AnalyzedTask,
    scoreLE a b → scoreLE b c → scoreLE a c := by
  intro a b c hab hbc
  simp only [scoreLE, decide_eq_true_eq] at *
  exact le_trans hbc hab

/-- The comparator is total. -/
theorem scoreLE_total : ∀ a b : AnalyzedTask, scoreLE a b || scoreLE b a := by
  intro a b
  rcases le_total b.priority.score a.priority.score with h | h <;>
    simp [scoreLE, h]

/-- Stability of mergeSort, filter form: a class of elements on which the
comparison is everywhere true is emitted in input order. -/
theorem filter_mergeSort_eq {α : Type} (le : α → α → Bool)
    (htrans : ∀ a b c, le a b → le b c → le a c)
    (htotal : ∀ a b, le a b || le b a)
    (l : List α) (p : α → Bool)
    (hp : ∀ a b, p a = true → p b = true → le a b = true) :
    (l.mergeSort le).filter p = l.filter p := by
  have hsub : List.Sublist (l.filter p) l := List.filter_sublist l
  have hpw : (l.filter p).Pairwise (fun a b => le a b = true) := by
    apply List.pairwise_of_forall_mem_list
    intro a ha b hb
    exact hp a b (List.mem_filter.mp ha).2 (List.mem_filter.mp hb).2
  have h2 : List.Sublist (l.filter p) (l.mergeSort le) :=
    List.sublist_mergeSort htrans htotal hpw hsub
  have h3 : List.Sublist (l.filter p) ((l.mergeSort le).filter p) := by
    have h4 := h2.filter p
    simpa [List.filter_filter] using h4
  have hlen : ((l.mergeSort le).filter p).length = (l.filter p).length :=
    ((List.mergeSort_perm l le).filter p).length_eq
  exact (h3.eq_of_length hlen.symm).symm

/-- Claim C6: on a non-empty task list, analyze succeeds and returns the
per-task priorities sorted by score descending, and tasks of equal score
appear in the same relative order as in the input list. -/
theorem analyze_sorted_and_stable (tasks : List Task) (strategy : Strategy)
    (now : ℚ) (h : tasks ≠ []) :
    analyze tasks strategy now = some (analyzeList tasks strategy now) ∧
    (analyzeList tasks strategy now).Pairwise
      (fun a b => b.priority.score ≤ a.priority.score) ∧
    ∀ q : ℚ,
      (analyzeList tasks strategy now).filter
          (fun a => decide (a.priority.score = q)) =
        (tasks.map (fun t => mkAnalyzed t tasks strategy now)).filter
          (fun a => decide (a.priority.score = q)) := by
  refine ⟨?_, ?_, ?_⟩
  · rw [analyze, if_neg]
    simp [List.isEmpty_iff, h]
  · have hs := List.sorted_mergeSort scoreLE_trans scoreLE_total
      (tasks.map (fun t => mkAnalyzed t tasks strategy now))
    exact hs.imp (fun hab => by simpa [scoreLE] using hab)
  · intro q
    apply filter_mergeSort_eq scoreLE scoreLE_trans scoreLE_total
    intro a b ha hb
    simp only [decide_eq_true_eq] at ha hb
    simp [scoreLE, ha, hb]

/-- Witness for analyze_sorted_and_stable on a singleton task list. -/
theorem analyze_sorted_and_stable_witness :
    analyze [taskT1] Strategy.smart_balance 0 =
      some (analyzeList [taskT1] Strategy.smart_balance 0) :=
  (analyze_sorted_and_stable [taskT1] Strategy.smart_balance 0 (by simp)).1

/-- On a non-empty working set, running the analysis stores the sorted
analyzed list and clears the loading flag, touching nothing else. -/
theorem runAnalyze_eq (s : AppState) (now : ℚ) (h : s.tasks ≠ []) :
    runAnalyze s now =
      { s with analyzedTasks := analyzeList s.tasks s.sortStrategy now
               loading := false } := by
  rw [runAnalyze, if_neg]
  simp [List.isEmpty_iff, h]

/-- Claim C7: analysis is deterministic and side-effect-free: two states
agreeing on working set and strategy, analyzed at the same instant, yield
bit-identical analyzed lists; the working set and strategy are left
unchanged; and re-running the analysis changes nothing further. -/
theorem analyze_deterministic (s₁ s₂ : AppState) (now : ℚ)
    (ht : s₁.tasks = s₂.tasks) (hs : s₁.sortStrategy = s₂.sortStrategy)
    (hne : s₁.tasks ≠ []) :
    (runAnalyze s₁ now).analyzedTasks = (runAnalyze s₂ now).analyzedTasks ∧
    (runAnalyze s₁ now).tasks = s₁.tasks ∧
    (runAnalyze s₁ now).sortStrategy = s₁.sortStrategy ∧
    runAnalyze (runAnalyze s₁ now) now = runAnalyze s₁ now := by
  have hne₂ : s₂.tasks ≠ [] := ht ▸ hne
  have hstep := runAnalyze_eq
    { s₁ with analyzedTasks := analyzeList s₁.tasks s₁.sortStrategy now
              loading := false } now hne
  rw [runAnalyze_eq s₁ now hne, runAnalyze_eq s₂ now hne₂]
  exact ⟨by simp [ht, hs], rfl, rfl, by rw [hstep]⟩

/-- A state sharing the working set and strategy of analyzedState but with
no prior analysis and the loading flag set. -/
def loadingState : AppState :=
  { tasks := [taskT1], analyzedTasks := []
    sortStrategy := Strategy.smart_balance, loading := true }

/-- Witness for analyze_deterministic: two states sharing the working set
and strategy but differing in prior analysis and loading flag. -/
theorem analyze_deterministic_witness :
    (runAnalyze analyzedState 0).analyzedTasks =
      (runAnalyze loadingState 0).analyzedTasks :=
  (analyze_deterministic analyzedState loadingState 0 rfl rfl
    (by simp [analyzedState])).1

/-- Claim C9: analysis of an empty task list reports the empty-input
failure, produces no analyzed list, and leaves the state untouched. -/
theorem analyze_empty_no_output_no_side_effect (s : AppState)
    (strategy : Strategy) (now : ℚ) (h : s.tasks = []) :
    analyze s.tasks strategy now = none ∧ runAnalyze s now = s := by
  constructor
  · rw [h]
    rfl
  · rw [runAnalyze, if_pos]
    simp [h]

/-- The state with an empty working set used as witness input. -/
def emptyState : AppState :=
  { tasks := [], analyzedTasks := [], sortStrategy := Strategy.smart_balance
    loading := false }

/-- Witness for analyze_empty_no_output_no_side_effect. -/
theorem analyze_empty_no_output_no_side_effect_witness :
    analyze emptyState.tasks Strategy.smart_balance 0 = none ∧
    runAnalyze emptyState 0 = emptyState :=
  analyze_empty_no_output_no_side_effect emptyState Strategy.smart_balance 0 rfl

/-- Following the spec wording for the imported importance: the parsed
value, defaulting to 5 only on parse failure, then clamped into [1,10].
Kept separate from validateRaw, which is translated from the source, so
the two can be compared. -/
def specImportanceRule (o : Option ℤ) : ℚ :=
  ((min (max (o.getD 5) 1) 10 : ℤ) : ℚ)

/-- A payload element whose importance parses to exactly 0. -/
def rawImp0 : RawTask :=
  { id := none, title := none, due_date := none, estimated_hours := none
    importance := some 0, dependencies := none }

/-- Claim C8 counterexample: an element with importance 0 is imported with
importance 5 (the falsy-default fires), while clamping the parsed value
into [1,10] as the claim states would give 1. -/
theorem import_importance_zero_not_clamped :
    (validateRaw 0 0 rawImp0).importance = 5 ∧
    specImportanceRule rawImp0.importance = 1 := by
  constructor
  · norm_num [validateRaw, rawImp0]
  · norm_num [specImportanceRule, rawImp0]

/-- The importance field produced by validateRaw, written out. -/
theorem validateRaw_importance (nowMs : ℤ) (idx : ℕ) (r : RawTask) :
    (validateRaw nowMs idx r).importance =
      ((min (max (match r.importance with
          | some i => if i = 0 then 5 else i
          | none => 5) 1) 10 : ℤ) : ℚ) := rfl

/-- Claim C8 (amended): a payload that does not parse leaves the state
unchanged; a parsed payload is imported whole, every element accepted,
defaulted and sanitized, and appended to the working set in payload order;
importance defaults to 5 when absent, unparseable, or parsed as zero, and
is clamped into [1,10] otherwise. -/
theorem bulkImport_defaults_and_append (s : AppState) (p : ParsedPayload)
    (nowMs : ℤ) :
    handleBulkImport none nowMs s = s ∧
    (handleBulkImport (some p) nowMs s).tasks =
      s.tasks ++ (payloadTasks p).mapIdx (fun idx t => validateRaw nowMs idx t) ∧
    (handleBulkImport (some p) nowMs s).analyzedTasks = s.analyzedTasks ∧
    ∀ (idx : ℕ) (r : RawTask),
      (r.title = none → (validateRaw nowMs idx r).title = "Untitled Task") ∧
      (r.estimated_hours = none →
        (validateRaw nowMs idx r).estimated_hours = 1) ∧
      (r.dependencies = none → (validateRaw nowMs idx r).dependencies = []) ∧
      (1 ≤ (validateRaw nowMs idx r).importance ∧
        (validateRaw nowMs idx r).importance ≤ 10) ∧
      (r.importance = none → (validateRaw nowMs idx r).importance = 5) ∧
      (r.importance = some 0 → (validateRaw nowMs idx r).importance = 5) ∧
      (∀ k : ℤ, r.importance = some k → k ≠ 0 →
        (validateRaw nowMs idx r).importance = ((min (max k 1) 10 : ℤ) : ℚ)) := by
  refine ⟨rfl, rfl, rfl, ?_⟩
  intro idx r
  refine ⟨fun h => by simp [validateRaw, h], fun h => by simp [validateRaw, h],
    fun h => by simp [validateRaw, h], ⟨?_, ?_⟩,
    fun h => by norm_num [validateRaw, h],
    fun h => by norm_num [validateRaw, h],
    fun k hk hk0 => by simp [validateRaw, hk, hk0]⟩
  · rw [validateRaw_importance]
    exact_mod_cast le_min (le_max_right _ 1) (by norm_num)
  · rw [validateRaw_importance]
    exact_mod_cast min_le_right (max _ 1) 10

/-- A payload element with every field absent. -/
def rawEmpty : RawTask :=
  { id := none, title := none, due_date := none, estimated_hours := none
    importance := none, dependencies := none }

/-- Witness for bulkImport_defaults_and_append on an all-absent element. -/
theorem bulkImport_defaults_and_append_witness :
    handleBulkImport none 0 emptyState = emptyState ∧
    (validateRaw 0 0 rawEmpty).title = "Untitled Task" ∧
    (validateRaw 0 0 rawEmpty).estimated_hours = 1 ∧
    (validateRaw 0 0 rawEmpty).importance = 5 ∧
    (validateRaw 0 0 rawEmpty).dependencies = [] := by
  have h := bulkImport_defaults_and_append emptyState (ParsedPayload.list []) 0
  have hf := h.2.2.2 0 rawEmpty
  exact ⟨h.1, hf.1 rfl, hf.2.1 rfl, hf.2.2.2.2.1 rfl, hf.2.2.1 rfl⟩

/-- Claim C10: an imported element whose estimated_hours parses to 0 gets
the default 1, while a negative parsed value is carried into the task
unchanged: the positive-hours constraint is not enforced on import. -/
theorem import_hours_zero_defaults_negative_kept (nowMs : ℤ) (idx : ℕ)
    (r : RawTask) :
    (r.estimated_hours = some 0 →
      (validateRaw nowMs idx r).estimated_hours = 1) ∧
    (∀ q : ℚ, q < 0 → r.estimated_hours = some q →
      (validateRaw nowMs idx r).estimated_hours = q) := by
  constructor
  · intro h
    simp [validateRaw, h]
  · intro q hq h
    have hne : q ≠ 0 := ne_of_lt hq
    simp [validateRaw, h, hne]

/-- A payload element whose estimated_hours parses to 0. -/
def rawHoursZero : RawTask :=
  { id := none, title := none, due_date := none, estimated_hours := some 0
    importance := none, dependencies := none }

/-- A payload element whose estimated_hours parses to a negative value. -/
def rawHoursNeg : RawTask :=
  { id := none, title := none, due_date := none, estimated_hours := some (-2)
    importance := none, dependencies := none }

/-- Witness for import_hours_zero_defaults_negative_kept. -/
theorem import_hours_zero_defaults_negative_kept_witness :
    (validateRaw 0 0 rawHoursZero).estimated_hours = 1 ∧
    (validateRaw 0 0 rawHoursNeg).estimated_hours = -2 :=
  ⟨(import_hours_zero_defaults_negative_kept 0 0 rawHoursZero).1 rfl,
   (import_hours_zero_defaults_negative_kept 0 0 rawHoursNeg).2 (-2)
     (by norm_num) rfl⟩

end TaskAnalyzer
